import Mathlib

/-!
Verification of `navigator_auth/exceptions.pyx` against its specification.

The module is a flat exception taxonomy: a base class `AuthException`
carrying `message`, `status` and an optional `stacktrace`, plus seven
`cdef` subclasses (`ConfigError`, `UserNotFound`, `Unauthorized`,
`InvalidAuth`, `FailedAuth`, `Forbidden`, `AuthExpired`), each of whose
`__init__` takes a single optional `str message = None` parameter and
forwards `message or <default>` together with a fixed status to the base
constructor.

The embedding models:
  * Python objects that can travel through `**kwargs` as `PyObject`;
  * `**kwargs` as an association list from keyword name to `PyObject`;
  * the base `__init__` body as `AuthException.init`;
  * Python keyword-argument binding (a keyword that matches no declared
    parameter raises `TypeError` unless the callee declares `**kwargs`)
    as `bindKwargs`, so that calls such as `ConfigError(status=503)` are
    representable and their failure observable;
  * each subclass `__init__` body as `<Name>.init`, and the call surface
    of all subclasses as `callSubtype`;
  * the read-only methods `get` and `__str__` in state-passing style,
    returning their value together with the (unchanged) receiver.
-/

namespace NavigatorAuth

/-- A Python object as it can appear in `**kwargs` (in particular as a
`stacktrace` payload): a string, an integer, or `None`. -/
inductive PyObject where
  | pyStr (s : String)
  | pyInt (n : Int)
  | pyNone
deriving DecidableEq, Repr

/-- `**kwargs`: keyword names mapped to values (Python guarantees the
names are distinct, but nothing below relies on that). -/
abbrev KwArgs := List (String × PyObject)

/-- Python truthiness-based defaulting for an optional `str` parameter:
`message or default` — `None` and the empty string are falsy. -/
def pyOrStr (message : Option String) (default : String) : String :=
  match message with
  | none => default
  | some s => if s = "" then default else s

/-- `str(x)` on the value stored in `message` (a `str`, or `None`),
as interpolated by an f-string. -/
def pyStrRepr : Option String → String
  | none => "None"
  | some s => s

/-- The value of `__name__` inside the compiled module
`navigator_auth/exceptions.pyx`, used by `__str__`. -/
def moduleName : String := "navigator_auth.exceptions"

/-- The state of an `AuthException` instance (base or subclass) after
`__init__` has run: the fields the methods read. -/
structure AuthException where
  message : Option String
  status : Int
  stacktrace : Option PyObject
deriving DecidableEq, Repr

/-- Body of `AuthException.__init__(self, str message, int status = 400,
**kwargs)`: sets `self.stacktrace = None`, overwrites it with
`kwargs['stacktrace']` when `'stacktrace' in kwargs`, stores `message`
as given, and stores `int(status)` (the parameter is already an
integer, so the coercion is the identity in this embedding). -/
def AuthException.init (message : Option String) (status : Int)
    (kwargs : KwArgs) : AuthException :=
  let st0 : Option PyObject := none
  let st :=
    if (kwargs.lookup "stacktrace").isSome then kwargs.lookup "stacktrace"
    else st0
  { message := message, status := status, stacktrace := st }

/-- `TypeError` conditions raised by Python/Cython when binding a call's
arguments to a constructor's signature. -/
inductive CallError where
  | unexpectedKeyword (name : String)
  | argTypeError (name : String)
deriving DecidableEq, Repr

/-- Python keyword binding: a keyword whose name is not a declared
parameter raises `TypeError: unexpected keyword argument` unless the
callee declares `**kwargs` (then every keyword is accepted). -/
def bindKwargs (accepted : List String) (hasStarStar : Bool)
    (kwargs : KwArgs) : Except CallError KwArgs :=
  if hasStarStar then Except.ok kwargs
  else
    match kwargs.find? (fun p => !(accepted.contains p.1)) with
    | some p => Except.error (CallError.unexpectedKeyword p.1)
    | none => Except.ok kwargs

/-- Calling `AuthException(message, status=..., **kwargs)`: the base
signature is `(self, str message, int status = 400, **kwargs)`, so every
extra keyword is accepted; `status` defaults to `400` when not
supplied. `message` and `status` are the values bound to the two named
parameters; `kwargs` is the rest. -/
def AuthException.call (message : Option String) (status : Option Int)
    (kwargs : KwArgs) : Except CallError AuthException :=
  match bindKwargs ["message", "status"] true kwargs with
  | Except.error e => Except.error e
  | Except.ok kw => Except.ok (AuthException.init message (status.getD 400) kw)

/-- Body of `ConfigError.__init__(self, str message = None)`:
`super().__init__(message or f"Auth Configuration Error.", status=500)`. -/
def ConfigError.init (message : Option String) : AuthException :=
  AuthException.init (some (pyOrStr message "Auth Configuration Error.")) 500 []

/-- Body of `UserNotFound.__init__(self, str message = None)`:
`super().__init__(message or "User doesn't exists.", status=404)`. -/
def UserNotFound.init (message : Option String) : AuthException :=
  AuthException.init (some (pyOrStr message "User doesn't exists.")) 404 []

/-- Body of `Unauthorized.__init__(self, str message = None)`:
`super().__init__(message or "Unauthorized", status=401)`. -/
def Unauthorized.init (message : Option String) : AuthException :=
  AuthException.init (some (pyOrStr message "Unauthorized")) 401 []

/-- Body of `InvalidAuth.__init__(self, str message = None)`:
`super().__init__(message or "Invalid Authentication", status=401)`. -/
def InvalidAuth.init (message : Option String) : AuthException :=
  AuthException.init (some (pyOrStr message "Invalid Authentication")) 401 []

/-- Body of `FailedAuth.__init__(self, str message = None)`:
`super().__init__(message or "Failed Authorization", status=403)`. -/
def FailedAuth.init (message : Option String) : AuthException :=
  AuthException.init (some (pyOrStr message "Failed Authorization")) 403 []

/-- Body of `Forbidden.__init__(self, str message = None)`:
`super().__init__(message or "Forbidden", status=403)`. -/
def Forbidden.init (message : Option String) : AuthException :=
  AuthException.init (some (pyOrStr message "Forbidden")) 403 []

/-- Body of `AuthExpired.__init__(self, str message = None)`:
`super().__init__(message or "Gone: Authentication Expired.", status=410)`. -/
def AuthExpired.init (message : Option String) : AuthException :=
  AuthException.init (some (pyOrStr message "Gone: Authentication Expired.")) 410 []

/-- The `cdef` subclasses of `AuthException` defined by the module, one
constructor per `cdef class ... (AuthException)` line. -/
inductive AuthErrorKind where
  | configError
  | userNotFound
  | unauthorized
  | invalidAuth
  | failedAuth
  | forbidden
  | authExpired
deriving DecidableEq, Repr, Fintype

/-- The subclasses in source order. -/
def allSubtypes : List AuthErrorKind :=
  [AuthErrorKind.configError, AuthErrorKind.userNotFound,
   AuthErrorKind.unauthorized, AuthErrorKind.invalidAuth,
   AuthErrorKind.failedAuth, AuthErrorKind.forbidden,
   AuthErrorKind.authExpired]

/-- Dispatch to the subclass `__init__` body. -/
def subtypeInit : AuthErrorKind → Option String → AuthException
  | AuthErrorKind.configError => ConfigError.init
  | AuthErrorKind.userNotFound => UserNotFound.init
  | AuthErrorKind.unauthorized => Unauthorized.init
  | AuthErrorKind.invalidAuth => InvalidAuth.init
  | AuthErrorKind.failedAuth => FailedAuth.init
  | AuthErrorKind.forbidden => Forbidden.init
  | AuthErrorKind.authExpired => AuthExpired.init

/-- The default message of each subclass, as hard-coded in its
`__init__`. -/
def defaultMessage : AuthErrorKind → String
  | AuthErrorKind.configError => "Auth Configuration Error."
  | AuthErrorKind.userNotFound => "User doesn't exists."
  | AuthErrorKind.unauthorized => "Unauthorized"
  | AuthErrorKind.invalidAuth => "Invalid Authentication"
  | AuthErrorKind.failedAuth => "Failed Authorization"
  | AuthErrorKind.forbidden => "Forbidden"
  | AuthErrorKind.authExpired => "Gone: Authentication Expired."

/-- The status each subclass passes to `super().__init__`. -/
def defaultStatus : AuthErrorKind → Int
  | AuthErrorKind.configError => 500
  | AuthErrorKind.userNotFound => 404
  | AuthErrorKind.unauthorized => 401
  | AuthErrorKind.invalidAuth => 401
  | AuthErrorKind.failedAuth => 403
  | AuthErrorKind.forbidden => 403
  | AuthErrorKind.authExpired => 410

/-- Calling a subclass constructor, e.g. `ConfigError(**kwargs)`. Every
subclass signature is `(self, str message = None)`: only the keyword
`message` binds to a parameter, any other keyword raises `TypeError`,
and the Cython `str` declaration rejects a non-`str`, non-`None`
argument with `TypeError`. -/
def callSubtype (k : AuthErrorKind) (kwargs : KwArgs) :
    Except CallError AuthException :=
  match bindKwargs ["message"] false kwargs with
  | Except.error e => Except.error e
  | Except.ok kw =>
    match kw.lookup "message" with
    | none => Except.ok (subtypeInit k none)
    | some (PyObject.pyStr s) => Except.ok (subtypeInit k (some s))
    | some PyObject.pyNone => Except.ok (subtypeInit k none)
    | some (PyObject.pyInt _) => Except.error (CallError.argTypeError "message")

/-- Body of `AuthException.get(self)`: `return self.message`. Rendered
in state-passing style: the returned value together with the receiver
as it is after the call. -/
def AuthException.get (self : AuthException) :
    Option String × AuthException :=
  (self.message, self)

/-- Body of `AuthException.__str__(self)`:
`return f"{__name__}: {self.message}"`, in state-passing style. -/
def AuthException.toStr (self : AuthException) : String × AuthException :=
  (moduleName ++ ": " ++ pyStrRepr self.message, self)

/-! ## Helper lemmas -/

/-- The base `__init__` stores exactly the given message and status, and
its `stacktrace` is the value bound to the keyword `stacktrace` when
present, `None` otherwise. -/
theorem AuthException.init_eq (m : Option String) (st : Int) (kwargs : KwArgs) :
    AuthException.init m st kwargs = ⟨m, st, kwargs.lookup "stacktrace"⟩ := by
  unfold AuthException.init
  cases h : kwargs.lookup "stacktrace" <;> simp [h]

/-- Every subclass body forwards `message or default` and its fixed
status to the base constructor, with no keyword arguments. -/
theorem subtypeInit_eq (k : AuthErrorKind) (m : Option String) :
    subtypeInit k m =
      AuthException.init (some (pyOrStr m (defaultMessage k)))
        (defaultStatus k) [] := by
  cases k <;> rfl

/-- The message stored by a subclass constructor body. -/
theorem subtypeInit_message (k : AuthErrorKind) (m : Option String) :
    (subtypeInit k m).message = some (pyOrStr m (defaultMessage k)) := by
  cases k <;> rfl

/-- The status stored by a subclass constructor body. -/
theorem subtypeInit_status (k : AuthErrorKind) (m : Option String) :
    (subtypeInit k m).status = defaultStatus k := by
  cases k <;> rfl

/-- A subclass constructor body never stores a stacktrace. -/
theorem subtypeInit_stacktrace (k : AuthErrorKind) (m : Option String) :
    (subtypeInit k m).stacktrace = none := by
  cases k <;> rfl

/-- A successful subclass constructor call produces an instance built by
that subclass's `__init__` body on some message argument. -/
theorem callSubtype_ok (k : AuthErrorKind) (kwargs : KwArgs)
    (e : AuthException) (h : callSubtype k kwargs = Except.ok e) :
    ∃ m, e = subtypeInit k m := by
  unfold callSubtype at h
  split at h
  · exact absurd h (by simp)
  · split at h
    · exact ⟨none, by injection h with h; exact h.symm⟩
    · exact ⟨_, by injection h with h; exact h.symm⟩
    · exact ⟨none, by injection h with h; exact h.symm⟩
    · exact absurd h (by simp)

/-! ## Claims -/

/-- C1, counterexample: constructing `ConfigError` with the keyword
`status=503` does not yield an instance with the default message and
status `503` — the subclass signature `(self, str message = None)` has
no `status` parameter, so the call raises
`TypeError: unexpected keyword argument`. -/
theorem C1_counterexample :
    ¬ ∃ e : AuthException,
        callSubtype AuthErrorKind.configError
            [("status", PyObject.pyInt 503)] = Except.ok e ∧
        e.message = some "Auth Configuration Error." ∧ e.status = 503 := by
  rintro ⟨e, he, -, -⟩
  rw [show callSubtype AuthErrorKind.configError
        [("status", PyObject.pyInt 503)] =
      Except.error (CallError.unexpectedKeyword "status") from rfl] at he
  exact Except.noConfusion he

/-- C1, amended: supplying an explicit `status` keyword to any of the
seven subclass constructors raises `TypeError` (unexpected keyword
argument), and every successfully constructed subclass instance carries
that subclass's fixed default status; an explicit status can be supplied
only to the base `AuthException` constructor, where it overrides the
base default `400`. -/
theorem C1_amended_status (k : AuthErrorKind) (n : Int) (m : Option String)
    (kw1 kw2 : KwArgs) (e1 e2 : AuthException) :
    callSubtype k [("status", PyObject.pyInt n)] =
      Except.error (CallError.unexpectedKeyword "status") ∧
    (callSubtype k kw1 = Except.ok e1 → e1.status = defaultStatus k) ∧
    (AuthException.call m (some n) kw2 = Except.ok e2 → e2.status = n) := by
  refine ⟨rfl, ?_, ?_⟩
  · intro h
    obtain ⟨m1, rfl⟩ := callSubtype_ok k kw1 e1 h
    exact subtypeInit_status k m1
  · intro h
    unfold AuthException.call bindKwargs at h
    simp only [if_pos rfl] at h
    injection h with h
    rw [← h, AuthException.init_eq]
    rfl

/-- C1, witness for the amended claim at the spec's concrete scenario:
`ConfigError(status=503)` raises `TypeError`; `ConfigError()` has status
`500` (its default); `AuthException(None, status=503)` has status
`503`. -/
theorem C1_amended_witness :
    callSubtype AuthErrorKind.configError [("status", PyObject.pyInt 503)] =
      Except.error (CallError.unexpectedKeyword "status") ∧
    callSubtype AuthErrorKind.configError [] =
      Except.ok ⟨some "Auth Configuration Error.", 500, none⟩ ∧
    (⟨some "Auth Configuration Error.", 500, none⟩ : AuthException).status =
      defaultStatus AuthErrorKind.configError ∧
    AuthException.call none (some 503) [] = Except.ok ⟨none, 503, none⟩ ∧
    (⟨none, 503, none⟩ : AuthException).status = 503 := by
  have h := C1_amended_status AuthErrorKind.configError 503 none [] []
    ⟨some "Auth Configuration Error.", 500, none⟩ ⟨none, 503, none⟩
  exact ⟨h.1, rfl, h.2.1 rfl, rfl, h.2.2 rfl⟩

/-- C2: constructing each of the seven subclasses with no arguments
yields exactly the tabulated default message and status:
`ConfigError` → ("Auth Configuration Error.", 500),
`UserNotFound` → ("User doesn't exists.", 404),
`Unauthorized` → ("Unauthorized", 401),
`InvalidAuth` → ("Invalid Authentication", 401),
`FailedAuth` → ("Failed Authorization", 403),
`Forbidden` → ("Forbidden", 403),
`AuthExpired` → ("Gone: Authentication Expired.", 410). -/
theorem C2_no_arg_defaults :
    callSubtype AuthErrorKind.configError [] =
      Except.ok ⟨some "Auth Configuration Error.", 500, none⟩ ∧
    callSubtype AuthErrorKind.userNotFound [] =
      Except.ok ⟨some "User doesn't exists.", 404, none⟩ ∧
    callSubtype AuthErrorKind.unauthorized [] =
      Except.ok ⟨some "Unauthorized", 401, none⟩ ∧
    callSubtype AuthErrorKind.invalidAuth [] =
      Except.ok ⟨some "Invalid Authentication", 401, none⟩ ∧
    callSubtype AuthErrorKind.failedAuth [] =
      Except.ok ⟨some "Failed Authorization", 403, none⟩ ∧
    callSubtype AuthErrorKind.forbidden [] =
      Except.ok ⟨some "Forbidden", 403, none⟩ ∧
    callSubtype AuthErrorKind.authExpired [] =
      Except.ok ⟨some "Gone: Authentication Expired.", 410, none⟩ :=
  ⟨rfl, rfl, rfl, rfl, rfl, rfl, rfl⟩

/-- C3, counterexample: the module does not define eight subtypes — the
source-order list of `cdef` subclasses has seven entries, not eight. -/
theorem C3_counterexample : allSubtypes.length ≠ 8 := by decide

/-- C3, amended: the module defines a base error type plus seven named
subtypes (a list without duplicates that exhausts the subclass kinds),
eight distinct error types in total, and each subtype defaults to its
specific message and status. -/
theorem C3_amended_taxonomy :
    allSubtypes.Nodup ∧ (∀ k : AuthErrorKind, k ∈ allSubtypes) ∧
    1 + allSubtypes.length = 8 ∧
    ∀ k : AuthErrorKind,
      callSubtype k [] =
        Except.ok ⟨some (defaultMessage k), defaultStatus k, none⟩ := by
  refine ⟨by decide, by decide, by decide, ?_⟩
  intro k
  cases k <;> rfl

/-- C4: constructing any subclass with an explicit non-empty message
stores that message in place of the default, while the subclass's
default status is unchanged. -/
theorem C4_explicit_message (k : AuthErrorKind) (s : String) (h : s ≠ "") :
    callSubtype k [("message", PyObject.pyStr s)] =
      Except.ok ⟨some s, defaultStatus k, none⟩ := by
  have hs : callSubtype k [("message", PyObject.pyStr s)] =
      Except.ok (subtypeInit k (some s)) := by
    cases k <;> rfl
  rw [hs, subtypeInit_eq, AuthException.init_eq]
  simp [pyOrStr, h]

/-- C4, witness at the spec's concrete scenario:
`Forbidden(message="nope")` yields message `"nope"` and status `403`. -/
theorem C4_witness :
    "nope" ≠ "" ∧
    callSubtype AuthErrorKind.forbidden [("message", PyObject.pyStr "nope")] =
      Except.ok ⟨some "nope", 403, none⟩ :=
  ⟨by decide, C4_explicit_message AuthErrorKind.forbidden "nope" (by decide)⟩

/-- C5: for every subclass, an omitted, `None` or empty message argument
makes the constructor store the subclass's default message, and the
stored message of every subclass instance is a non-empty string. -/
theorem C5_default_message (k : AuthErrorKind) (m : Option String) :
    ((m = none ∨ m = some "") →
      (subtypeInit k m).message = some (defaultMessage k)) ∧
    ∃ s, (subtypeInit k m).message = some s ∧ s ≠ "" := by
  constructor
  · rintro (rfl | rfl) <;> (cases k <;> rfl)
  · rcases m with - | s
    · exact ⟨defaultMessage k, by cases k <;> rfl, by cases k <;> decide⟩
    · by_cases hs : s = ""
      · subst hs
        exact ⟨defaultMessage k, by cases k <;> rfl, by cases k <;> decide⟩
      · refine ⟨s, ?_, hs⟩
        rw [subtypeInit_message]
        simp [pyOrStr, hs]

/-- C5, witness: `Unauthorized("")` stores the default message
`"Unauthorized"`, which is non-empty. -/
theorem C5_witness :
    (subtypeInit AuthErrorKind.unauthorized (some "")).message =
      some (defaultMessage AuthErrorKind.unauthorized) ∧
    ∃ s, (subtypeInit AuthErrorKind.unauthorized (some "")).message = some s ∧
      s ≠ "" :=
  ⟨(C5_default_message AuthErrorKind.unauthorized (some "")).1 (Or.inr rfl),
   (C5_default_message AuthErrorKind.unauthorized (some "")).2⟩

/-- C6: supplying `stacktrace` as a keyword to the base constructor
makes that exact value the instance's `stacktrace`; omitting it leaves
`stacktrace` equal to `None` — and every subclass constructor, which
passes no keyword arguments, leaves it `None` as well. -/
theorem C6_stacktrace (m : Option String) (st : Option Int)
    (kw1 kw2 : KwArgs) (v : PyObject) (k : AuthErrorKind)
    (m2 : Option String) :
    (kw1.lookup "stacktrace" = some v →
      ∃ e, AuthException.call m st kw1 = Except.ok e ∧
        e.stacktrace = some v) ∧
    (kw2.lookup "stacktrace" = none →
      ∃ e, AuthException.call m st kw2 = Except.ok e ∧
        e.stacktrace = none) ∧
    (subtypeInit k m2).stacktrace = none := by
  refine ⟨?_, ?_, subtypeInit_stacktrace k m2⟩
  · intro h
    refine ⟨⟨m, st.getD 400, some v⟩, ?_, rfl⟩
    simp [AuthException.call, bindKwargs, AuthException.init_eq, h]
  · intro h
    refine ⟨⟨m, st.getD 400, none⟩, ?_, rfl⟩
    simp [AuthException.call, bindKwargs, AuthException.init_eq, h]

/-- C6, witness: the base constructor with
`stacktrace=PyObject.pyStr "tb"` stores exactly that value; with no
keyword arguments the field is `None`; `Forbidden()` also leaves it
`None`. -/
theorem C6_witness :
    ([("stacktrace", PyObject.pyStr "tb")] : KwArgs).lookup "stacktrace" =
      some (PyObject.pyStr "tb") ∧
    (∃ e, AuthException.call none none
        [("stacktrace", PyObject.pyStr "tb")] = Except.ok e ∧
      e.stacktrace = some (PyObject.pyStr "tb")) ∧
    ([] : KwArgs).lookup "stacktrace" = none ∧
    (∃ e, AuthException.call none none [] = Except.ok e ∧
      e.stacktrace = none) ∧
    (subtypeInit AuthErrorKind.forbidden none).stacktrace = none := by
  have h := C6_stacktrace none none [("stacktrace", PyObject.pyStr "tb")] []
    (PyObject.pyStr "tb") AuthErrorKind.forbidden none
  exact ⟨rfl, h.1 rfl, rfl, h.2.1 rfl, h.2.2⟩

/-- C7: `get()` returns exactly the stored message, and (being a pure
read rendered in state-passing style) leaves the instance unchanged. -/
theorem C7_get (e : AuthException) :
    (AuthException.get e).1 = e.message ∧ (AuthException.get e).2 = e :=
  ⟨rfl, rfl⟩

/-- C8: the status field is always present and integer-valued (it has
type `Int` in the embedding): the base constructor defaults it to `400`
when no status is supplied, stores the supplied integer otherwise, and
every subclass constructor stores its tabulated integer default. -/
theorem C8_status_invariant (m : Option String) (kwargs : KwArgs) (n : Int)
    (k : AuthErrorKind) (m2 : Option String) :
    (∃ e, AuthException.call m none kwargs = Except.ok e ∧
      e.status = 400) ∧
    (∃ e, AuthException.call m (some n) kwargs = Except.ok e ∧
      e.status = n) ∧
    (subtypeInit k m2).status = defaultStatus k := by
  refine ⟨?_, ?_, subtypeInit_status k m2⟩
  · refine ⟨⟨m, 400, kwargs.lookup "stacktrace"⟩, ?_, rfl⟩
    simp [AuthException.call, bindKwargs, AuthException.init_eq]
  · refine ⟨⟨m, n, kwargs.lookup "stacktrace"⟩, ?_, rfl⟩
    simp [AuthException.call, bindKwargs, AuthException.init_eq]

/-- C9: the read operations mutate nothing: `get()` and string
conversion return the receiver unchanged, and string conversion returns
the module label joined with the message. -/
theorem C9_reads_preserve (e : AuthException) :
    (AuthException.get e).2 = e ∧
    (AuthException.toStr e).2 = e ∧
    (AuthException.toStr e).1 =
      moduleName ++ ": " ++ pyStrRepr e.message :=
  ⟨rfl, rfl, rfl⟩

/-- C10 (implicit): constructing the base `AuthException` with arbitrary
extra keyword options always succeeds; only the `stacktrace` keyword is
consulted (its value becomes the `stacktrace` field), and the message
and status are exactly the ones determined by the `message` and
`status` parameters. -/
theorem C10_base_kwargs (m : Option String) (st : Option Int)
    (kwargs : KwArgs) :
    AuthException.call m st kwargs =
      Except.ok ⟨m, st.getD 400, kwargs.lookup "stacktrace"⟩ := by
  simp [AuthException.call, bindKwargs, AuthException.init_eq]

end NavigatorAuth
